import Mathlib

/-!
Verification development for the boagent metrics API, a shallow embedding of
the metrics-computation pipeline of src/boagent/api/api.py.

Conventions of the embedding:
* Python floats (timestamps, impact figures, wattages) are modelled as exact
  rationals; all divisions in the source are exact rational divisions.
* The ambient runtime configuration object, the clock, the power-sample file,
  the hardware-cache file system state and the external impact-estimation
  service are gathered into an explicit environment value that is passed to
  the pipeline; the service is an arbitrary function from the outbound
  request to a response.
* Fallible operations (file reads, list indexing that can raise IndexError)
  are modelled with Except / Option; side effects (collector invocations,
  file reads) are recorded as an explicit event trace in the result.
* Python truthiness tests on floats and strings (zero and the empty string
  are falsy) are translated as the corresponding decidable tests.
* Constant descriptive strings attached to report fields (descriptions,
  units) are not part of the model; the warning side conditions that select
  between them are kept.
-/

namespace Boagent

/-- Runtime configuration fields read by the pipeline (the config module is
external to the sources; only the two numeric fields used by get_metrics are
modelled). -/
structure Settings where
  seconds_in_one_year : ℚ
  default_lifetime : ℚ
  deriving DecidableEq, Repr, Inhabited

/-- One power sample of the power-data file: the host sub-object carries a
timestamp (seconds) and a consumption in microwatts. -/
structure HostSample where
  timestamp : ℚ
  consumption : ℚ
  deriving DecidableEq, Repr, Inhabited

/-- Result dictionary of get_power_data (api.py lines 250-260). -/
structure PowerData where
  raw_data : List HostSample
  host_avg_consumption : ℚ
  warning : Option String
  deriving DecidableEq, Repr, Inhabited

/-- Shallow embedding of compute_average_consumption (api.py lines 263-273):
sums the host consumption over all samples, divides by the sample count and
by 1e6 (microwatts to watts); an empty list yields the initial 0.0. -/
def compute_average_consumption (power_data : List HostSample) : ℚ :=
  let total_host : ℚ := 0
  let avg_host : ℚ := 0
  if power_data.length > 0 then
    let total_host := power_data.foldl (fun acc r => acc + r.consumption) total_host
    total_host / (power_data.length : ℚ) / 1000000
  else
    avg_host

/-- Shallow embedding of get_power_data (api.py lines 250-260): the power
file content is the explicit argument file_data; samples are kept when
start_time <= host.timestamp <= end_time, the average is computed over the
kept samples, and a low-confidence warning is attached when the window is at
most 3600 seconds. -/
def get_power_data (file_data : List HostSample) (start_time end_time : ℚ) : PowerData :=
  let res := file_data.filter
    (fun e => decide (start_time ≤ e.timestamp) && decide (e.timestamp ≤ end_time))
  { raw_data := res
    host_avg_consumption := compute_average_consumption res
    warning :=
      if end_time - start_time ≤ 3600 then
        some "The time window is lower than one hour, but the energy consumption estimate is in Watt.Hour. So this is an extrapolation of the power usage profile on one hour. Be careful with this data."
      else
        none }

/-- One CPU record of the hardware inventory; only core_units and family are
read by the configuration builder. -/
structure CpuRecord where
  core_units : Nat
  family : String
  deriving DecidableEq, Repr, Inhabited

/-- One RAM record of the hardware inventory; treated as an opaque blob by
the pipeline (it is only passed through a sort). -/
structure RamRecord where
  raw : String
  deriving DecidableEq, Repr, Inhabited

/-- One disk record of the hardware inventory; treated as an opaque blob by
the pipeline (it is only passed through a sort). -/
structure DiskRecord where
  raw : String
  deriving DecidableEq, Repr, Inhabited

/-- A motherboard or power-supply record; the fallback default built by the
configuration builder is units = 1 with no extra content. -/
structure ComponentRecord where
  units : Nat
  extra : String
  deriving DecidableEq, Repr, Inhabited

/-- Hardware inventory as written by the external collector: cpus, rams and
disks are always present, mother_board and power_supply may be absent. -/
structure HardwareData where
  cpus : List CpuRecord
  rams : List RamRecord
  disks : List DiskRecord
  mother_board : Option ComponentRecord
  power_supply : Option ComponentRecord
  deriving DecidableEq, Repr, Inhabited

/-- State of the hardware-cache file and of the external collector, for
get_hardware_data: reading the cache yields cache_data when cache_ok,
otherwise the read raises; running the collector overwrites the cache with
collector_data, readable iff collector_ok. -/
structure HwEnv where
  cache_ok : Bool
  cache_data : HardwareData
  collector_ok : Bool
  collector_data : HardwareData
  deriving DecidableEq, Repr, Inhabited

/-- Observable side effects of get_hardware_data: collector invocations and
cache-read attempts (with their success). -/
inductive HwEvent where
  | build : HwEvent
  | readAttempt : Bool → HwEvent
  deriving DecidableEq, Repr, Inhabited

/-- Shallow embedding of read_hardware_data (api.py lines 288-291): reading
and parsing the cache file, which fails when the file is absent or
malformed. -/
def read_hardware_data (s : HwEnv) : Except Unit HardwareData :=
  if s.cache_ok then Except.ok s.cache_data else Except.error ()

/-- Shallow embedding of build_hardware_data (api.py lines 294-295): invokes
the external collector, which overwrites the cache file. -/
def build_hardware_data (s : HwEnv) : HwEnv :=
  { s with cache_ok := s.collector_ok, cache_data := s.collector_data }

/-- Shallow embedding of get_hardware_data (api.py lines 276-285): when
fetch_hardware is set the collector runs before the read; a failed read is
retried exactly once after one rebuild, and a second failure propagates.
The returned trace records the collector invocations and read attempts in
order. -/
def get_hardware_data (s : HwEnv) (fetch_hardware : Bool) :
    Except Unit HardwareData × List HwEvent :=
  let s1 := if fetch_hardware then build_hardware_data s else s
  let ev1 : List HwEvent := if fetch_hardware then [HwEvent.build] else []
  match read_hardware_data s1 with
  | Except.ok d => (Except.ok d, ev1 ++ [HwEvent.readAttempt true])
  | Except.error _ =>
    let s2 := build_hardware_data s1
    match read_hardware_data s2 with
    | Except.ok d =>
      (Except.ok d, ev1 ++ [HwEvent.readAttempt false, HwEvent.build, HwEvent.readAttempt true])
    | Except.error e =>
      (Except.error e, ev1 ++ [HwEvent.readAttempt false, HwEvent.build, HwEvent.readAttempt false])

/-- CPU block of the machine configuration sent to the impact service. -/
structure CpuConfig where
  units : Nat
  core_units : Nat
  family : String
  deriving DecidableEq, Repr, Inhabited

/-- Machine configuration sent to the impact service. -/
structure MachineConfiguration where
  cpu : CpuConfig
  ram : List RamRecord
  disk : List DiskRecord
  motherboard : ComponentRecord
  power_supply : ComponentRecord
  deriving DecidableEq, Repr, Inhabited

/-- Shallow embedding of generate_machine_configuration (api.py lines
313-325). The subscript hardware_data['cpus'][0] raises IndexError on an
empty CPU list, modelled by the none result. sort_ram and sort_disks live in
the utils module, which is not among the sources; the spec states only that
they are stable sorts by an unspecified key, so they are kept as explicit
function parameters. -/
def generate_machine_configuration (sort_ram : List RamRecord → List RamRecord)
    (sort_disks : List DiskRecord → List DiskRecord)
    (hardware_data : HardwareData) : Option MachineConfiguration :=
  match hardware_data.cpus.head? with
  | none => none
  | some cpu0 =>
    some
      { cpu :=
          { units := hardware_data.cpus.length
            core_units := cpu0.core_units
            family := cpu0.family }
        ram := sort_ram hardware_data.rams
        disk := sort_disks hardware_data.disks
        motherboard :=
          match hardware_data.mother_board with
          | some mb => mb
          | none => { units := 1, extra := "" }
        power_supply :=
          match hardware_data.power_supply with
          | some ps => ps
          | none => { units := 1, extra := "" } }

/-- Usage request sent to the impact service, as built by
format_usage_request: hours_use_time always, usage_location and
hours_electrical_consumption only when their keys were added. -/
structure UsageRequest where
  hours_use_time : ℚ
  usage_location : Option String
  hours_electrical_consumption : Option ℚ
  deriving DecidableEq, Repr, Inhabited

/-- Shallow embedding of format_usage_request (api.py lines 238-247). The
source guards the optional keys with Python truthiness tests, so a None or
empty location and a None or exactly-zero average consumption leave the
corresponding key absent. -/
def format_usage_request (start_time end_time : ℚ) (host_avg_consumption : Option ℚ)
    (location : Option String) : UsageRequest :=
  let hours_use_time := (end_time - start_time) / 3600
  { hours_use_time := hours_use_time
    usage_location :=
      match location with
      | some s => if s ≠ "" then some s else none
      | none => none
    hours_electrical_consumption :=
      match host_avg_consumption with
      | some c => if c ≠ 0 then some c else none
      | none => none }

/-- Impact figures of one criterion in the impact-service response. -/
structure PhaseImpact where
  manufacture : ℚ
  use : ℚ
  deriving DecidableEq, Repr, Inhabited

/-- The three impact criteria of the impact-service response. -/
structure Impacts where
  gwp : PhaseImpact
  adp : PhaseImpact
  pe : PhaseImpact
  deriving DecidableEq, Repr, Inhabited

/-- The gwp_factor sub-object of the verbose USAGE data. -/
structure GwpFactor where
  value : ℚ
  deriving DecidableEq, Repr, Inhabited

/-- The usage_location sub-object of the verbose USAGE data. -/
structure UsageLocationInfo where
  status : String
  deriving DecidableEq, Repr, Inhabited

/-- The verbose USAGE sub-object of the impact-service response. -/
structure UsageVerbose where
  gwp_factor : GwpFactor
  usage_location : UsageLocationInfo
  deriving DecidableEq, Repr, Inhabited

/-- The verbose sub-object of the impact-service response. -/
structure VerboseData where
  USAGE : UsageVerbose
  deriving DecidableEq, Repr, Inhabited

/-- Impact-service response, as consumed by get_metrics. -/
structure BoaviztapiData where
  impacts : Impacts
  verbose : VerboseData
  deriving DecidableEq, Repr, Inhabited

/-- One leaf metric of the report; the constant description, type, unit and
long_unit strings are not modelled. -/
structure MetricField where
  value : ℚ
  deriving DecidableEq, Repr, Inhabited

/-- The emissions_calculation_data sub-object of the report.
carbon_intensity_note records which (if any) of the two fixed warning
sentences was appended to the carbon-intensity description;
raw_data_included records whether the verbose raw payloads were attached. -/
structure EmissionsCalcData where
  energy_consumption_warning : Option String
  average_power_measured : Option ℚ
  electricity_carbon_intensity : Option ℚ
  carbon_intensity_note : Option String
  raw_data_included : Bool
  deriving DecidableEq, Repr, Inhabited

/-- The metrics report assembled by get_metrics; absent keys are none. -/
structure Report where
  total_operational_emissions : Option MetricField
  total_operational_abiotic_resources_depletion : Option MetricField
  total_operational_primary_energy_consumed : Option MetricField
  calculated_emissions : MetricField
  start_time : MetricField
  end_time : MetricField
  embedded_emissions : MetricField
  embedded_abiotic_resources_depletion : MetricField
  embedded_primary_energy : MetricField
  emissions_calculation_data : EmissionsCalcData
  deriving DecidableEq, Repr, Inhabited

/-- Result of one successful get_metrics run: the report itself plus the
observables of the run, namely the outbound request to the impact service
(configuration and usage), the response it returned, the values of the local
ratio and lifetime variables after the window normalisation, and the
hardware-provider event trace. -/
structure MetricsResult where
  report : Report
  sent_config : MachineConfiguration
  sent_usage : UsageRequest
  api_data : BoaviztapiData
  ratio_value : ℚ
  lifetime_after_growth : ℚ
  hw_events : List HwEvent
  deriving DecidableEq, Repr, Inhabited

/-- Ambient environment of one get_metrics request: configuration, the value
time.time() returns at the start of the run, the parsed content of the
power-data file, the hardware-cache state, the two sorts from the external
utils module, and the impact-estimation service as a function. -/
structure Env where
  settings : Settings
  now : ℚ
  power_file : List HostSample
  hw : HwEnv
  sort_ram : List RamRecord → List RamRecord
  sort_disks : List DiskRecord → List DiskRecord
  impact_service : MachineConfiguration → UsageRequest → BoaviztapiData

/-- Shallow embedding of get_metrics (api.py lines 109-235). The ratio is
computed from the original bounds before defaulting (both-nonzero test is
Python truthiness on floats); the window is then resolved against now; the
lifetime variable is grown afterwards and is not read again. A hardware
failure or an empty CPU inventory aborts the request with an error. Note
that the emissions_calculation_data dict that may carry the power warning is
rebuilt from scratch at source line 206, so the warning never reaches the
final report. -/
def get_metrics (env : Env) (start_time end_time : ℚ) (verbose : Bool)
    (location : Option String) (measure_power : Bool) (lifetime : ℚ)
    (fetch_hardware : Bool) : Except Unit MetricsResult :=
  let now := env.now
  let ratio_value : ℚ :=
    if start_time ≠ 0 ∧ end_time ≠ 0 then
      (end_time - start_time) / (lifetime * env.settings.seconds_in_one_year)
    else
      1
  let start_time := if start_time = 0 then now - 3600 else start_time
  let end_time := if end_time = 0 then now else end_time
  let lifetime_grown : ℚ :=
    if end_time - start_time ≥ lifetime * env.settings.seconds_in_one_year then
      (end_time - start_time) / env.settings.seconds_in_one_year
    else
      lifetime
  let hw_result := get_hardware_data env.hw fetch_hardware
  match hw_result.1 with
  | Except.error e => Except.error e
  | Except.ok hardware_data =>
    let power_data_opt : Option PowerData :=
      if measure_power then some (get_power_data env.power_file start_time end_time) else none
    let host_avg_consumption : Option ℚ :=
      power_data_opt.map (fun p => p.host_avg_consumption)
    let _early_ecd : EmissionsCalcData :=
      { energy_consumption_warning := power_data_opt.bind (fun p => p.warning)
        average_power_measured := none
        electricity_carbon_intensity := none
        carbon_intensity_note := none
        raw_data_included := false }
    match generate_machine_configuration env.sort_ram env.sort_disks hardware_data with
    | none => Except.error ()
    | some configuration =>
      let usage := format_usage_request start_time end_time host_avg_consumption location
      let boaviztapi_data := env.impact_service configuration usage
      let status := boaviztapi_data.verbose.USAGE.usage_location.status
      let ecd : EmissionsCalcData :=
        { energy_consumption_warning := none
          average_power_measured := host_avg_consumption
          electricity_carbon_intensity := some boaviztapi_data.verbose.USAGE.gwp_factor.value
          carbon_intensity_note :=
            if status = "MODIFY" then some "MODIFY_WARNING"
            else if status = "SET" then some "SET_WARNING"
            else none
          raw_data_included := verbose }
      Except.ok
        { report :=
            { total_operational_emissions :=
                if measure_power then some ⟨boaviztapi_data.impacts.gwp.use⟩ else none
              total_operational_abiotic_resources_depletion :=
                if measure_power then some ⟨boaviztapi_data.impacts.adp.use⟩ else none
              total_operational_primary_energy_consumed :=
                if measure_power then some ⟨boaviztapi_data.impacts.pe.use⟩ else none
              calculated_emissions :=
                ⟨boaviztapi_data.impacts.gwp.manufacture * ratio_value +
                  boaviztapi_data.impacts.gwp.use⟩
              start_time := ⟨start_time⟩
              end_time := ⟨end_time⟩
              embedded_emissions := ⟨boaviztapi_data.impacts.gwp.manufacture * ratio_value⟩
              embedded_abiotic_resources_depletion :=
                ⟨boaviztapi_data.impacts.adp.manufacture * ratio_value⟩
              embedded_primary_energy := ⟨boaviztapi_data.impacts.pe.manufacture * ratio_value⟩
              emissions_calculation_data := ecd }
          sent_config := configuration
          sent_usage := usage
          api_data := boaviztapi_data
          ratio_value := ratio_value
          lifetime_after_growth := lifetime_grown
          hw_events := hw_result.2 }

/-- Python str.endswith restricted to a one-character suffix, which is the
only form parse_date_info uses. -/
def endswith_char (s : String) (c : Char) : Bool :=
  match s.data.getLast? with
  | some c2 => c2 = c
  | none => false

/-- Python str.replace(c, ""): removes every occurrence of the character. -/
def remove_all_char (s : String) (c : Char) : List Char :=
  s.data.filter (fun x => x != c)

/-- Python int() over a digit sequence: fails on the empty sequence or on a
non-digit character. -/
def parse_nat_chars (cs : List Char) : Option Nat :=
  if cs = [] then
    none
  else
    cs.foldl
      (fun acc c =>
        match acc with
        | none => none
        | some n => if c.isDigit then some (n * 10 + (c.toNat - 48)) else none)
      (some 0)

/-- Python int() over a character sequence with an optional sign. -/
def parse_int_chars (cs : List Char) : Option Int :=
  match cs with
  | [] => none
  | '-' :: rest => (parse_nat_chars rest).map (fun n => -(n : Int))
  | '+' :: rest => (parse_nat_chars rest).map (fun n => (n : Int))
  | _ => (parse_nat_chars cs).map (fun n => (n : Int))

/-- Shallow embedding of parse_date_info (api.py lines 351-372). The two
datetime.now() calls are modelled by the single parameter now (in seconds);
timedelta spans are 86400, 3600 and 60 seconds. The bare ValueError(...)
expressions in the source construct an exception without raising it, so the
unmatched-suffix branches fall through and keep the defaults; the only
raising operation in the function is int(), modelled by parse_int_chars
returning none. Note the d-branch is a separate if statement, so its result
is kept only when the h/m chain also falls through to its else. -/
def parse_date_info (since until_arg : String) (now : ℚ) : Except String (ℚ × ℚ) :=
  let end_date := now
  let start_date := end_date - 3600
  let end_date := if since = "now" then now else end_date
  let after_d : Except String ℚ :=
    if endswith_char until_arg 'd' then
      match parse_int_chars (remove_all_char until_arg 'd') with
      | none => Except.error "invalid literal for int"
      | some days => Except.ok (end_date - (days : ℚ) * 86400)
    else
      Except.ok start_date
  match after_d with
  | Except.error e => Except.error e
  | Except.ok start_date =>
    if endswith_char until_arg 'h' then
      match parse_int_chars (remove_all_char until_arg 'h') with
      | none => Except.error "invalid literal for int"
      | some hours => Except.ok (end_date - (hours : ℚ) * 3600, end_date)
    else if endswith_char until_arg 'm' then
      match parse_int_chars (remove_all_char until_arg 'm') with
      | none => Except.error "invalid literal for int"
      | some minutes => Except.ok (end_date - (minutes : ℚ) * 60, end_date)
    else
      Except.ok (start_date, end_date)

/-- Concrete environment used by the witness and counterexample theorems:
a one-year amortisation constant of 31536000 seconds, a clock at 1000000,
three power samples, a readable hardware cache with two identical CPUs, and
a constant impact service. -/
def envA : Env :=
  { settings := { seconds_in_one_year := 31536000, default_lifetime := 5 }
    now := 1000000
    power_file := [⟨200, 1000000⟩, ⟨300, 3000000⟩, ⟨999999, 7000000⟩]
    hw :=
      { cache_ok := true
        cache_data :=
          { cpus := [⟨8, "x"⟩, ⟨8, "x"⟩]
            rams := [⟨"r1"⟩]
            disks := [⟨"d1"⟩]
            mother_board := none
            power_supply := none }
        collector_ok := true
        collector_data := default }
    sort_ram := id
    sort_disks := id
    impact_service := fun _ _ =>
      { impacts := { gwp := ⟨100, 7⟩, adp := ⟨50, 3⟩, pe := ⟨20, 1⟩ }
        verbose := { USAGE := { gwp_factor := ⟨9 / 20⟩, usage_location := ⟨"COMPLETED"⟩ } } } }

/-- Successful run of get_metrics on envA over the window 100..3700 with
power measurement on. -/
def rA : MetricsResult :=
  (get_metrics envA 100 3700 false none true 4 false).toOption.getD default

/-- Successful run of get_metrics on envA over a two-year window, which
triggers the lifetime growth branch. -/
def rB : MetricsResult :=
  (get_metrics envA 1000 63073000 false none false 1 false).toOption.getD default

/-- Successful run of get_metrics on envA with both window bounds zero. -/
def rC : MetricsResult :=
  (get_metrics envA 0 0 false none true 4 false).toOption.getD default

/-- Successful run of get_metrics on envA over a window holding no power
samples (measured average 0.0) and with an empty location string. -/
def rD : MetricsResult :=
  (get_metrics envA 5000 8600 false (some "") true 4 false).toOption.getD default

/-- Inventory with two identical CPUs, used by the witness of the
configuration-builder claim. -/
def hwC : HardwareData :=
  { cpus := [⟨8, "x"⟩, ⟨8, "x"⟩]
    rams := []
    disks := []
    mother_board := none
    power_supply := none }

/-- Configuration built from hwC with pass-through sorts. -/
def cfgC : MachineConfiguration :=
  (generate_machine_configuration id id hwC).getD default

/-- Environment whose hardware cache reports zero CPUs, used by the witness
of the empty-inventory claim. -/
def envE : Env :=
  { envA with
      hw :=
        { cache_ok := true
          cache_data := { cpus := [], rams := [], disks := [], mother_board := none, power_supply := none }
          collector_ok := true
          collector_data := { cpus := [], rams := [], disks := [], mother_board := none, power_supply := none } } }

/-- Folding addition of a projection over a list equals the starting value
plus the sum of the projected values. -/
theorem foldl_add_eq_sum (l : List HostSample) (a : ℚ) :
    l.foldl (fun acc r => acc + r.consumption) a = a + (l.map HostSample.consumption).sum := by
  induction l generalizing a with
  | nil => simp
  | cons x xs ih => simp [ih, add_assoc]

/-- Claim C4: compute_average_consumption returns the sum of the host
consumption values divided by the sample count and by 1e6, and 0.0 on the
empty list; the two-sample list with consumptions 1000000 and 3000000 yields
2.0; and get_power_data keeps exactly the samples whose host timestamp lies
in the window, both bounds inclusive. -/
theorem c4_average_and_inclusive_filter :
    compute_average_consumption [] = 0
    ∧ (∀ l : List HostSample,
        compute_average_consumption l =
          if l = [] then 0
          else (l.map HostSample.consumption).sum / (l.length : ℚ) / 1000000)
    ∧ compute_average_consumption
        [{ timestamp := 1, consumption := 1000000 }, { timestamp := 2, consumption := 3000000 }] = 2
    ∧ (∀ (file_data : List HostSample) (start_time end_time : ℚ) (e : HostSample),
        e ∈ (get_power_data file_data start_time end_time).raw_data ↔
          e ∈ file_data ∧ start_time ≤ e.timestamp ∧ e.timestamp ≤ end_time) := by
  refine ⟨rfl, fun l => ?_, by with_unfolding_all decide, fun file_data st et e => ?_⟩
  · cases l with
    | nil => rfl
    | cons x xs =>
      simp [compute_average_consumption, foldl_add_eq_sum]
  · simp [get_power_data, List.mem_filter, and_assoc]

/-- Claim C5 counterexample: for a window of exactly 3600 seconds the
low-confidence warning is present in the get_power_data result, refuting the
claim that it is absent there. -/
theorem c5_counterexample :
    (get_power_data [] 0 3600).warning ≠ none := by
  with_unfolding_all decide

/-- Claim C5 amended: the low-confidence warning is present exactly when the
window length is at most 3600 seconds (the source comparison is non-strict),
so it is present both at 3600 and at 3599 seconds. -/
theorem c5_warning_iff_at_most_hour (file_data : List HostSample) (start_time end_time : ℚ) :
    (get_power_data file_data start_time end_time).warning.isSome = true ↔
      end_time - start_time ≤ 3600 := by
  simp only [get_power_data]
  split <;> simp_all

/-- Claim C7: for an inventory with a non-empty CPU list the builder sets
cpu.units to the CPU list length and cpu.core_units / cpu.family to the
first record's values, and motherboard / power_supply are passed through
when present and default to a units-1 record exactly when absent. -/
theorem c7_configuration_builder (sort_ram : List RamRecord → List RamRecord)
    (sort_disks : List DiskRecord → List DiskRecord)
    (hw : HardwareData) (c0 : CpuRecord) (rest : List CpuRecord)
    (hcpus : hw.cpus = c0 :: rest)
    (cfg : MachineConfiguration)
    (hcfg : generate_machine_configuration sort_ram sort_disks hw = some cfg) :
    cfg.cpu.units = hw.cpus.length
    ∧ cfg.cpu.core_units = c0.core_units
    ∧ cfg.cpu.family = c0.family
    ∧ (hw.mother_board = none → cfg.motherboard = { units := 1, extra := "" })
    ∧ (∀ mb, hw.mother_board = some mb → cfg.motherboard = mb)
    ∧ (hw.power_supply = none → cfg.power_supply = { units := 1, extra := "" })
    ∧ (∀ ps, hw.power_supply = some ps → cfg.power_supply = ps) := by
  simp only [generate_machine_configuration, hcpus, List.head?, Option.some.injEq] at hcfg
  subst hcfg
  refine ⟨by simp [hcpus], rfl, rfl, ?_, ?_, ?_, ?_⟩
  · intro hmb
    simp [hmb]
  · intro mb hmb
    simp [hmb]
  · intro hps
    simp [hps]
  · intro ps hps
    simp [hps]

/-- Claim C7 witness: the two-identical-CPU inventory yields cpu.units = 2,
cpu.core_units = 8, cpu.family = x, and both fallback defaults. -/
theorem c7_configuration_builder_witness :
    cfgC.cpu.units = 2
    ∧ cfgC.cpu.core_units = 8
    ∧ cfgC.cpu.family = "x"
    ∧ (hwC.mother_board = none → cfgC.motherboard = { units := 1, extra := "" })
    ∧ (∀ mb, hwC.mother_board = some mb → cfgC.motherboard = mb)
    ∧ (hwC.power_supply = none → cfgC.power_supply = { units := 1, extra := "" })
    ∧ (∀ ps, hwC.power_supply = some ps → cfgC.power_supply = ps) :=
  c7_configuration_builder id id hwC ⟨8, "x"⟩ [⟨8, "x"⟩] rfl cfgC rfl

/-- Claim C8: full characterisation of the hardware provider. When
fetch_hardware is set the collector runs before the read; otherwise the
cache is read first; a failed read is followed by exactly one rebuild and
one re-read, and a second read failure propagates as the error result; no
further retry ever happens. -/
theorem c8_hardware_provider (s : HwEnv) (fetch_hardware : Bool) :
    get_hardware_data s fetch_hardware =
      if fetch_hardware then
        if s.collector_ok then
          (Except.ok s.collector_data, [HwEvent.build, HwEvent.readAttempt true])
        else
          (Except.error (),
            [HwEvent.build, HwEvent.readAttempt false, HwEvent.build, HwEvent.readAttempt false])
      else
        if s.cache_ok then
          (Except.ok s.cache_data, [HwEvent.readAttempt true])
        else if s.collector_ok then
          (Except.ok s.collector_data,
            [HwEvent.readAttempt false, HwEvent.build, HwEvent.readAttempt true])
        else
          (Except.error (),
            [HwEvent.readAttempt false, HwEvent.build, HwEvent.readAttempt false]) := by
  cases fetch_hardware <;> cases hc : s.cache_ok <;> cases hk : s.collector_ok <;>
    simp [get_hardware_data, read_hardware_data, build_hardware_data, hc, hk]

/-- Claim C9: for any since other than now and any until whose last
character is none of d, h, m, the parser returns the default window
(now - 3600, now) without raising. -/
theorem c9_malformed_window_defaults (since until_arg : String) (now : ℚ)
    (h1 : since ≠ "now")
    (h2 : endswith_char until_arg 'd' = false)
    (h3 : endswith_char until_arg 'h' = false)
    (h4 : endswith_char until_arg 'm' = false) :
    parse_date_info since until_arg now = Except.ok (now - 3600, now) := by
  simp [parse_date_info, h1, h2, h3, h4]

/-- Claim C9 witness: the malformed pair since = tomorrow, until = xyz gives
the default one-hour window ending at the current time. -/
theorem c9_malformed_window_defaults_witness :
    parse_date_info "tomorrow" "xyz" 10000 = Except.ok (10000 - 3600, 10000) :=
  c9_malformed_window_defaults "tomorrow" "xyz" 10000 (by decide) (by decide) (by decide)
    (by decide)

/-- Claim C10: an empty CPU list makes the configuration builder fail (the
first-record access is out of bounds), so a get_metrics call whose hardware
inventory reports zero CPUs fails with an error instead of producing a
report; and for every non-empty CPU list the builder succeeds, so that
error branch is unreachable under the non-empty precondition. -/
theorem c10_empty_cpus_fails (env : Env) (start_time end_time : ℚ) (verbose : Bool)
    (location : Option String) (measure_power : Bool) (lifetime : ℚ) (fetch_hardware : Bool)
    (d : HardwareData) (evs : List HwEvent)
    (hhw : get_hardware_data env.hw fetch_hardware = (Except.ok d, evs))
    (hcpus : d.cpus = []) :
    (∀ sr sd, generate_machine_configuration sr sd d = none)
    ∧ get_metrics env start_time end_time verbose location measure_power lifetime fetch_hardware
        = Except.error ()
    ∧ (∀ (d2 : HardwareData) sr sd, d2.cpus ≠ [] →
        (generate_machine_configuration sr sd d2).isSome = true) := by
  refine ⟨fun sr sd => ?_, ?_, fun d2 sr sd hne => ?_⟩
  · simp [generate_machine_configuration, hcpus]
  · simp [get_metrics, hhw, generate_machine_configuration, hcpus]
  · cases hd : d2.cpus with
    | nil => exact absurd hd hne
    | cons a l => simp [generate_machine_configuration, hd]

/-- Claim C10 witness: on the environment whose cache reports zero CPUs the
builder returns none, the request errors out, and any non-empty inventory
makes the builder succeed. -/
theorem c10_empty_cpus_fails_witness :
    (∀ sr sd,
        generate_machine_configuration sr sd
          { cpus := [], rams := [], disks := [], mother_board := none, power_supply := none }
          = none)
    ∧ get_metrics envE 0 0 false none true 1 false = Except.error ()
    ∧ (∀ (d2 : HardwareData) sr sd, d2.cpus ≠ [] →
        (generate_machine_configuration sr sd d2).isSome = true) :=
  c10_empty_cpus_fails envE 0 0 false none true 1 false
    { cpus := [], rams := [], disks := [], mother_board := none, power_supply := none }
    [HwEvent.readAttempt true] rfl rfl

/-- Claim C1: in every successful get_metrics run the embedded_emissions
value is the service's gwp manufacture figure times the computed ratio, the
calculated_emissions value is gwp manufacture times ratio plus gwp use (the
exact rational expression, no additional rounding), the embedded ADP and PE
values are the adp and pe manufacture figures times the same ratio, and when
measure_power is set the three total_operational fields carry the unscaled
gwp, adp and pe use figures. -/
theorem c1_report_values (env : Env) (start_time end_time : ℚ) (verbose : Bool)
    (location : Option String) (measure_power : Bool) (lifetime : ℚ) (fetch_hardware : Bool)
    (r : MetricsResult)
    (h : get_metrics env start_time end_time verbose location measure_power lifetime fetch_hardware
        = Except.ok r) :
    r.report.embedded_emissions.value = r.api_data.impacts.gwp.manufacture * r.ratio_value
    ∧ r.report.calculated_emissions.value
        = r.api_data.impacts.gwp.manufacture * r.ratio_value + r.api_data.impacts.gwp.use
    ∧ r.report.embedded_abiotic_resources_depletion.value
        = r.api_data.impacts.adp.manufacture * r.ratio_value
    ∧ r.report.embedded_primary_energy.value
        = r.api_data.impacts.pe.manufacture * r.ratio_value
    ∧ (measure_power = true →
        r.report.total_operational_emissions = some ⟨r.api_data.impacts.gwp.use⟩
        ∧ r.report.total_operational_abiotic_resources_depletion
            = some ⟨r.api_data.impacts.adp.use⟩
        ∧ r.report.total_operational_primary_energy_consumed
            = some ⟨r.api_data.impacts.pe.use⟩) := by
  rcases hhw : (get_hardware_data env.hw fetch_hardware).1 with e | hardware_data
  · simp [get_metrics, hhw] at h
  · rcases hcfg : generate_machine_configuration env.sort_ram env.sort_disks hardware_data
      with _ | cfg
    · simp [get_metrics, hhw, hcfg] at h
    · simp only [get_metrics, hhw, hcfg, Except.ok.injEq] at h
      subst h
      refine ⟨rfl, rfl, rfl, rfl, fun hmp => ?_⟩
      simp [hmp]

/-- Claim C1 witness: the report values of the concrete run rA. -/
theorem c1_report_values_witness :
    rA.report.embedded_emissions.value = rA.api_data.impacts.gwp.manufacture * rA.ratio_value
    ∧ rA.report.calculated_emissions.value
        = rA.api_data.impacts.gwp.manufacture * rA.ratio_value + rA.api_data.impacts.gwp.use
    ∧ rA.report.embedded_abiotic_resources_depletion.value
        = rA.api_data.impacts.adp.manufacture * rA.ratio_value
    ∧ rA.report.embedded_primary_energy.value
        = rA.api_data.impacts.pe.manufacture * rA.ratio_value
    ∧ (true = true →
        rA.report.total_operational_emissions = some ⟨rA.api_data.impacts.gwp.use⟩
        ∧ rA.report.total_operational_abiotic_resources_depletion
            = some ⟨rA.api_data.impacts.adp.use⟩
        ∧ rA.report.total_operational_primary_energy_consumed
            = some ⟨rA.api_data.impacts.pe.use⟩) :=
  c1_report_values envA 100 3700 false none true 4 false rA (by with_unfolding_all rfl)

/-- Claim C2 counterexample: on a two-year window with lifetime 1 the
lifetime variable is indeed grown to (end - start) / seconds_in_one_year,
but the reported ratio is 2, not (end - start) divided by the grown lifetime
times seconds_in_one_year (which would be 1): the ratio was already computed
from the original lifetime before the growth. -/
theorem c2_counterexample :
    get_metrics envA 1000 63073000 false none false 1 false = Except.ok rB
    ∧ rB.lifetime_after_growth = (63073000 - 1000) / (31536000 : ℚ)
    ∧ rB.ratio_value ≠ (63073000 - 1000) / (rB.lifetime_after_growth * 31536000) :=
  ⟨by with_unfolding_all rfl, by with_unfolding_all decide, by with_unfolding_all decide⟩

/-- Claim C2 amended: for nonzero bounds with end - start at least
lifetime times seconds_in_one_year, the local lifetime variable is grown to
(end - start) / seconds_in_one_year, but this growth happens after the ratio
computation and the variable is never read again, so the ratio reported
through the emission fields equals (end - start) divided by the original
lifetime times seconds_in_one_year. -/
theorem c2_lifetime_growth (env : Env) (start_time end_time : ℚ) (verbose : Bool)
    (location : Option String) (measure_power : Bool) (lifetime : ℚ) (fetch_hardware : Bool)
    (r : MetricsResult)
    (hst : start_time ≠ 0) (het : end_time ≠ 0)
    (hwin : end_time - start_time ≥ lifetime * env.settings.seconds_in_one_year)
    (h : get_metrics env start_time end_time verbose location measure_power lifetime fetch_hardware
        = Except.ok r) :
    r.lifetime_after_growth = (end_time - start_time) / env.settings.seconds_in_one_year
    ∧ r.ratio_value = (end_time - start_time) / (lifetime * env.settings.seconds_in_one_year) := by
  rcases hhw : (get_hardware_data env.hw fetch_hardware).1 with e | hardware_data
  · simp [get_metrics, hhw] at h
  · rcases hcfg : generate_machine_configuration env.sort_ram env.sort_disks hardware_data
      with _ | cfg
    · simp [get_metrics, hhw, hcfg] at h
    · simp only [get_metrics, hhw, hcfg, Except.ok.injEq] at h
      subst h
      constructor
      · simp [hst, het, hwin]
      · simp [hst, het]

/-- Claim C2 amended witness: the two-year run rB has grown lifetime 2 and
ratio computed from the original lifetime 1. -/
theorem c2_lifetime_growth_witness :
    rB.lifetime_after_growth = (63073000 - 1000) / envA.settings.seconds_in_one_year
    ∧ rB.ratio_value = (63073000 - 1000) / (1 * envA.settings.seconds_in_one_year) :=
  c2_lifetime_growth envA 1000 63073000 false none false 1 false rB
    (by with_unfolding_all decide) (by with_unfolding_all decide)
    (by with_unfolding_all decide) (by with_unfolding_all rfl)

/-- Claim C3: the ratio is computed from the original bounds before
defaulting, so it is 1 whenever either original bound is zero; and when both
bounds are zero the report carries the resolved window from now - 3600 to
now, with now resolved once at the start of the run. -/
theorem c3_zero_window (env : Env) (start_time end_time : ℚ) (verbose : Bool)
    (location : Option String) (measure_power : Bool) (lifetime : ℚ) (fetch_hardware : Bool)
    (r : MetricsResult)
    (h : get_metrics env start_time end_time verbose location measure_power lifetime fetch_hardware
        = Except.ok r) :
    ((start_time = 0 ∨ end_time = 0) → r.ratio_value = 1)
    ∧ (start_time = 0 → end_time = 0 →
        r.report.start_time.value = env.now - 3600 ∧ r.report.end_time.value = env.now) := by
  rcases hhw : (get_hardware_data env.hw fetch_hardware).1 with e | hardware_data
  · simp [get_metrics, hhw] at h
  · rcases hcfg : generate_machine_configuration env.sort_ram env.sort_disks hardware_data
      with _ | cfg
    · simp [get_metrics, hhw, hcfg] at h
    · simp only [get_metrics, hhw, hcfg, Except.ok.injEq] at h
      subst h
      constructor
      · intro h0
        rcases h0 with h0 | h0 <;> simp [h0]
      · intro h0 h1
        simp [h0, h1]

/-- Claim C3 witness: the both-bounds-zero run rC has ratio 1 and carries
the window from now - 3600 to now. -/
theorem c3_zero_window_witness :
    (((0 : ℚ) = 0 ∨ (0 : ℚ) = 0) → rC.ratio_value = 1)
    ∧ ((0 : ℚ) = 0 → (0 : ℚ) = 0 →
        rC.report.start_time.value = envA.now - 3600 ∧ rC.report.end_time.value = envA.now) :=
  c3_zero_window envA 0 0 false none true 4 false rC (by with_unfolding_all rfl)

/-- Claim C6 counterexample: with power measurement on but no samples in the
window the measured average is 0.0, and with an empty location string a
location argument is given; yet the usage request contains neither
hours_electrical_consumption nor usage_location, because the source guards
both keys with Python truthiness tests. -/
theorem c6_counterexample :
    get_metrics envA 5000 8600 false (some "") true 4 false = Except.ok rD
    ∧ rD.report.emissions_calculation_data.average_power_measured = some 0
    ∧ rD.sent_usage.hours_electrical_consumption = none
    ∧ rD.sent_usage.usage_location = none :=
  ⟨by with_unfolding_all rfl, by with_unfolding_all decide,
    by with_unfolding_all decide, by with_unfolding_all decide⟩

/-- Claim C6 amended: the usage request carries hours_use_time equal to the
resolved window length divided by 3600; usage_location is present exactly
when a non-empty location is given; hours_electrical_consumption equals the
measured average power when measure_power is set and that average is
nonzero, and is absent when the average is zero (Python truthiness) or when
power is not measured. -/
theorem c6_usage_request (env : Env) (start_time end_time : ℚ) (verbose : Bool)
    (location : Option String) (measure_power : Bool) (lifetime : ℚ) (fetch_hardware : Bool)
    (r : MetricsResult)
    (h : get_metrics env start_time end_time verbose location measure_power lifetime fetch_hardware
        = Except.ok r) :
    r.sent_usage.hours_use_time
        = (r.report.end_time.value - r.report.start_time.value) / 3600
    ∧ (location = none → r.sent_usage.usage_location = none)
    ∧ (∀ s, location = some s → s ≠ "" → r.sent_usage.usage_location = some s)
    ∧ (location = some "" → r.sent_usage.usage_location = none)
    ∧ (measure_power = false → r.sent_usage.hours_electrical_consumption = none)
    ∧ (measure_power = true →
        ∀ a, r.report.emissions_calculation_data.average_power_measured = some a →
          (a ≠ 0 → r.sent_usage.hours_electrical_consumption = some a)
          ∧ (a = 0 → r.sent_usage.hours_electrical_consumption = none)) := by
  rcases hhw : (get_hardware_data env.hw fetch_hardware).1 with e | hardware_data
  · simp [get_metrics, hhw] at h
  · rcases hcfg : generate_machine_configuration env.sort_ram env.sort_disks hardware_data
      with _ | cfg
    · simp [get_metrics, hhw, hcfg] at h
    · simp only [get_metrics, hhw, hcfg, Except.ok.injEq] at h
      subst h
      refine ⟨by simp [format_usage_request], ?_, ?_, ?_, ?_, ?_⟩
      · intro hloc
        simp [format_usage_request, hloc]
      · intro s hloc hs
        simp [format_usage_request, hloc, hs]
      · intro hloc
        simp [format_usage_request, hloc]
      · intro hmp
        simp [format_usage_request, hmp]
      · intro hmp a hpa
        subst hmp
        simp at hpa
        constructor
        · intro ha
          simp [format_usage_request, hpa, ha]
        · intro ha
          simp [format_usage_request, hpa, ha]

/-- Claim C6 amended witness: the run rA (window 100..3700, two samples in
the window averaging 2 W, no location) carries hours_use_time 1 via the
resolved bounds, no usage_location, and hours_electrical_consumption 2. -/
theorem c6_usage_request_witness :
    rA.sent_usage.hours_use_time
        = (rA.report.end_time.value - rA.report.start_time.value) / 3600
    ∧ ((none : Option String) = none → rA.sent_usage.usage_location = none)
    ∧ (∀ s, (none : Option String) = some s → s ≠ "" → rA.sent_usage.usage_location = some s)
    ∧ ((none : Option String) = some "" → rA.sent_usage.usage_location = none)
    ∧ (true = false → rA.sent_usage.hours_electrical_consumption = none)
    ∧ (true = true →
        ∀ a, rA.report.emissions_calculation_data.average_power_measured = some a →
          (a ≠ 0 → rA.sent_usage.hours_electrical_consumption = some a)
          ∧ (a = 0 → rA.sent_usage.hours_electrical_consumption = none)) :=
  c6_usage_request envA 100 3700 false none true 4 false rA (by with_unfolding_all rfl)

end Boagent
